import Mathlib

/-
Verification of the vistream binary message protocol, socket pool and
session state machine against their specification.

Modelling conventions, used throughout:
* Byte strings are `List Nat`, one entry per byte (values < 256 where the
  source guarantees it).
* `src/protocol/message.py` compares single bytes read from the socket
  buffer directly against `MessageKind` / `StreamFlags` members; those
  comparisons are modelled by the numeric value of the byte, which is the
  reading under which the rest of each parse function is well defined.
* `bitstring.pack("uintbeN", v)` is modelled by the big-endian digit
  expansion (`be16`/`be24`/`be32` below); the source assumes the value
  fits in N bits.  `floatbe32` values are modelled by their 32-bit
  big-endian images (a pair of 4-byte fields), since only their width and
  placement matter for the claims considered here.
* `zlib.compress` / `zlib.decompress` are external library calls; they are
  passed as explicit function parameters `zc` / `zd` of the definitions
  that invoke them, so no behaviour is invented for them.
* Python exceptions that escape a function (`TypeError`, `ValueError`,
  `AttributeError`, `KeyError`, `NameError`) are modelled by
  `Except.error` results carrying the exception name.
-/

/-- Big-endian 2-byte image of `v`, as produced by `bitstring` `uintbe16`
(for `v < 2^16`). -/
def be16 (v : Nat) : List Nat := [v / 256 % 256, v % 256]

/-- Big-endian 3-byte image of `v`, as produced by `bitstring` `uintbe24`
(for `v < 2^24`). -/
def be24 (v : Nat) : List Nat := [v / 65536 % 256, v / 256 % 256, v % 256]

/-- Big-endian 4-byte image of a 32-bit field (`uintbe32`, or the IEEE-754
image of a `floatbe32`). -/
def be32 (v : Nat) : List Nat :=
  [v / 16777216 % 256, v / 65536 % 256, v / 256 % 256, v % 256]

/-- Value of a big-endian byte string (the `uintbeN` unpack direction). -/
def beVal (l : List Nat) : Nat := l.foldl (fun a b => a * 256 + b) 0

/-- Modelled from the spec: `BufferedSocket` lives in
`protocol/socket_buffer.py`, which is not part of `src/`; the spec
describes it as a buffered reader over one stream socket with
`peek(n)` (no consumption) and `read(n)` returning either exactly `n`
bytes or "insufficient" (`None`) with zero consumption for that call.
The buffered byte stream is the `data` list. -/
structure Buffer where
  data : List Nat
deriving DecidableEq

/-- Modelled from the spec: `BufferedSocket.read(n)` — exactly `n` bytes and
consumption of exactly those bytes, or `none` and an unchanged buffer. -/
def Buffer.read (b : Buffer) (n : Nat) : Option (List Nat) × Buffer :=
  if n ≤ b.data.length then (some (b.data.take n), ⟨b.data.drop n⟩) else (none, b)

/-- Modelled from the spec: `BufferedSocket.peek(n)` — `n` bytes without
consumption, or `none` when fewer are buffered. -/
def Buffer.peek (b : Buffer) (n : Nat) : Option (List Nat) :=
  if n ≤ b.data.length then some (b.data.take n) else none

/-- The `MessageKind` `IntEnum` of `src/protocol/message.py` (values
`FRAME_DATA = 1` … `STOP = 5`, `INVALID = -1`). -/
inductive MessageKind where
  | FRAME_DATA
  | REQUEST
  | CONFIGURE
  | START
  | STOP
  | INVALID
deriving DecidableEq

/-- Numeric value of each `MessageKind` member (`auto()` numbering from 1,
`INVALID = -1`). -/
def MessageKind.val : MessageKind → Int
  | .FRAME_DATA => 1
  | .REQUEST => 2
  | .CONFIGURE => 3
  | .START => 4
  | .STOP => 5
  | .INVALID => -1

/-- `MessageKind.of` (message.py lines 19-33): dispatch on the first byte
`b[0]` of the peeked bytes; every unknown value maps to `INVALID`.  The
argument is the value of that first byte. -/
def MessageKind.of (byte : Nat) : MessageKind :=
  if byte = 1 then .FRAME_DATA
  else if byte = 2 then .REQUEST
  else if byte = 3 then .CONFIGURE
  else if byte = 4 then .START
  else if byte = 5 then .STOP
  else .INVALID

/-- The dispatch decision of `Message.parse` (message.py lines 85-99): it
peeks one byte and tests it against each of the five kinds in turn,
falling through to `None` ("no message") on anything else; `parseBranch`
returns which kind's branch is selected.  Nothing is consumed from the
buffer by the dispatch itself (`peek`).  In the source the selected branch
then invokes the message class constructor on the buffer (e.g.
`Stop(buffer)`) rather than the class's `parse` method, so the branch
bodies themselves do not produce a parsed message; that behaviour is not
representable in a typed embedding and is recorded at the claim level. -/
def Message.parseBranch (b : Buffer) : Option MessageKind :=
  match b.peek 1 with
  | none => none
  | some h =>
    let v := h.headD 0
    if v = 1 then some .FRAME_DATA
    else if v = 2 then some .REQUEST
    else if v = 3 then some .CONFIGURE
    else if v = 4 then some .START
    else if v = 5 then some .STOP
    else none

/-- `FrameData` (message.py lines 104-117): an optional frame payload, an
optional auxiliary payload, the requested compression setting, and whether
the stored payload bytes are currently compressed
(`_currently_compressed`). -/
structure FrameData where
  frame_data : Option (List Nat)
  addl_data : Option (List Nat)
  compressed : Bool
  currently_compressed : Bool
deriving DecidableEq

/-- `FrameData.__init__` (message.py lines 111-117): raises `ValueError`
("No data provided") when both payloads are `None`, otherwise stores the
four fields. -/
def FrameData.init (frame_data addl_data : Option (List Nat))
    (compressed currently_compressed : Bool) : Except String FrameData :=
  match frame_data, addl_data with
  | none, none => .error "ValueError: No data provided"
  | fd, ad => .ok ⟨fd, ad, compressed, currently_compressed⟩

/-- `FrameData._compress` (message.py lines 119-131): a no-op when the
payloads are already compressed; otherwise applies `zlib.compress`
(parameter `zc`) to each present payload and records the compressed
state. -/
def FrameData._compress (zc : List Nat → List Nat) (m : FrameData) : FrameData :=
  if m.currently_compressed then m
  else { m with
         frame_data := m.frame_data.map zc,
         addl_data := m.addl_data.map zc,
         currently_compressed := true }

/-- `FrameData._decompress` (message.py lines 133-145): a no-op when the
payloads are not currently compressed.  Otherwise the frame payload is
inflated with `zlib.decompress` (parameter `zd`), but the auxiliary branch
of the source calls `zlib.compress` on the payload and then assigns from
the misspelled name `decompl_addl`, which raises `NameError`; so whenever
an auxiliary payload is present the call faults after mutating the frame
payload (the fault is modelled by the error result). -/
def FrameData._decompress (zd : List Nat → List Nat) (m : FrameData) :
    Except String FrameData :=
  if m.currently_compressed = false then .ok m
  else
    let m := { m with frame_data := m.frame_data.map zd }
    match m.addl_data with
    | some _ => .error "NameError: decompl_addl"
    | none => .ok { m with currently_compressed := false }

/-- `FrameData.format` (message.py lines 199-217): compresses first when
`compressed` is set, then writes tag `1`, a flags byte
(`compressed * StreamFlags.COMPRESSED`), the 3-byte frame length, the
frame bytes, the 2-byte auxiliary length and the auxiliary bytes.  The
source computes `len(self._frame_data)` and `len(self._addl_data)`
unconditionally, so whenever either payload is `None` the call raises
`TypeError` (`len` of `None`). -/
def FrameData.format (zc : List Nat → List Nat) (m : FrameData) :
    Except String (List Nat) :=
  let m := if m.compressed then FrameData._compress zc m else m
  match m.frame_data, m.addl_data with
  | some fd, some ad =>
      .ok ([1] ++ [if m.compressed then 1 else 0]
            ++ be24 fd.length ++ fd ++ be16 ad.length ++ ad)
  | _, _ => .error "TypeError: len of None"

/-- Auxiliary-payload half of `FrameData.parse` (message.py lines 186-197):
reads the 2-byte auxiliary length and, when positive, that many payload
bytes, then invokes the constructor
`cls(frame_data, addl_data, compressed, compressed)`, whose `ValueError`
(both payloads absent) propagates.  The source never unpacks the two
length bytes (unlike `frame_len`, line 177); the only reading under which
the subsequent `> 0` comparison and `read` are well defined is their
big-endian value, used here. -/
def FrameData.parseAddl (frame_data : Option (List Nat)) (compressed : Bool)
    (b : Buffer) : Except String (Option FrameData) × Buffer :=
  match b.read 2 with
  | (none, b) => (.ok none, b)
  | (some alb, b) =>
    if alb.length ≠ 2 then (.ok none, b) else
    let addl_len := beVal alb
    if addl_len > 0 then
      match b.read addl_len with
      | (none, b) => (.ok none, b)
      | (some ad, b) =>
        if ad.length ≠ addl_len then (.ok none, b) else
        match FrameData.init frame_data (some ad) compressed compressed with
        | .error e => (.error e, b)
        | .ok m => (.ok (some m), b)
    else
      match FrameData.init frame_data none compressed compressed with
      | .error e => (.error e, b)
      | .ok m => (.ok (some m), b)

/-- `FrameData.parse` (message.py lines 162-197): sequential `read` calls
for tag, flags, 3-byte frame length, frame bytes, then the auxiliary
section (`parseAddl`).  Each failed field check returns `None` ("not yet
available"), but the bytes already consumed by the earlier successful
`read` calls stay consumed — the returned buffer reflects that.  The
`compressed` flag is bit 0 of the flags byte
(`flags & StreamFlags.COMPRESSED`). -/
def FrameData.parse (b0 : Buffer) : Except String (Option FrameData) × Buffer :=
  match b0.read 1 with
  | (none, b) => (.ok none, b)
  | (some header, b) =>
    if header ≠ [1] then (.ok none, b) else
    match b.read 1 with
    | (none, b) => (.ok none, b)
    | (some fl, b) =>
      let compressed := decide (fl.headD 0 % 2 = 1)
      match b.read 3 with
      | (none, b) => (.ok none, b)
      | (some flb, b) =>
        if flb.length ≠ 3 then (.ok none, b) else
        let frame_len := beVal flb
        if frame_len > 0 then
          match b.read frame_len with
          | (none, b) => (.ok none, b)
          | (some fd, b) =>
            if fd.length ≠ frame_len then (.ok none, b) else
            FrameData.parseAddl (some fd) compressed b
        else
          FrameData.parseAddl none compressed b

/-- The "carries at least one non-empty payload" predicate of the spec's
FrameData invariant (spec §3).  This definition follows the spec's words,
not the source, and exists only to state the invariant over the embedded
`FrameData`. -/
def FrameData.hasNonemptyPayload (m : FrameData) : Bool :=
  (match m.frame_data with | some l => !l.isEmpty | none => false)
  || (match m.addl_data with | some l => !l.isEmpty | none => false)

/-- The `parameters` dictionary of a `Configure` message
(`dict[Parameter, Any]`, message.py line 256), one optional field per
`Parameter` flag: `FRAME_SIZE` a pair of uint16, `COMPRESSED` a bool,
`FOV` a pair of float32 (modelled by their 32-bit big-endian images),
`TARGET_SIZE` a pair of uint16. -/
structure ParamValues where
  frame_size : Option (Nat × Nat)
  compressed : Option Bool
  fov : Option (Nat × Nat)
  target_size : Option (Nat × Nat)
deriving DecidableEq

/-- The `FRAME_SIZE` chunk of `Parameter.format_data` (message.py lines
61-62): two `uintbe16` fields when present, nothing otherwise. -/
def fsBytes : Option (Nat × Nat) → List Nat
  | some (w, h) => be16 w ++ be16 h
  | none => []

/-- The `COMPRESSED` chunk of `Parameter.format_data` (message.py lines
63-64): one `uint8` holding the boolean when present. -/
def compBytes : Option Bool → List Nat
  | some c => [if c then 1 else 0]
  | none => []

/-- The `FOV` chunk of `Parameter.format_data` (message.py lines 65-66):
two `floatbe32` fields (4-byte images) when present. -/
def fovBytes : Option (Nat × Nat) → List Nat
  | some (x, y) => be32 x ++ be32 y
  | none => []

/-- The `TARGET_SIZE` chunk of `Parameter.format_data` (message.py lines
67-68): two `uintbe16` fields when present. -/
def tsBytes : Option (Nat × Nat) → List Nat
  | some (w, h) => be16 w ++ be16 h
  | none => []

/-- `Parameter.format_data` (message.py lines 58-70): joins the chunks of
the present parameters, always in the order `FRAME_SIZE`, `COMPRESSED`,
`FOV`, `TARGET_SIZE`. -/
def Parameter.format_data (d : ParamValues) : List Nat :=
  fsBytes d.frame_size ++ compBytes d.compressed
    ++ fovBytes d.fov ++ tsBytes d.target_size

/-- The flags word written by `Configure.format` (message.py lines
300-302): the bitwise OR of the `Parameter` flag of every present key
(`FRAME_SIZE = 1`, `COMPRESSED = 2`, `FOV = 4`, `TARGET_SIZE = 8`). -/
def Configure.flagsWord (d : ParamValues) : Nat :=
  (if d.frame_size.isSome then 1 else 0) |||
  (if d.compressed.isSome then 2 else 0) |||
  (if d.fov.isSome then 4 else 0) |||
  (if d.target_size.isSome then 8 else 0)

/-- `Configure.format` (message.py lines 299-304): packs the `CONFIGURE`
tag (`uintbe8`, value 3), the 2-byte parameter flags word and the
parameter data (the source returns the packed `bitstring` object rather
than calling `tobytes()`; the byte content is the same). -/
def Configure.format (d : ParamValues) : List Nat :=
  [3] ++ be16 (Configure.flagsWord d) ++ Parameter.format_data d

/-- The `StreamFlags` `IntFlag` (message.py lines 79-82): `COMPRESSED = 1`,
`FRAME_DATA = 2`, `ADDL_DATA = 4`. -/
def StreamFlags.COMPRESSED : Nat := 1

/-- `StreamFlags.FRAME_DATA` bit. -/
def StreamFlags.FRAME_DATA : Nat := 2

/-- `StreamFlags.ADDL_DATA` bit. -/
def StreamFlags.ADDL_DATA : Nat := 4

/-- `Start` (message.py lines 307-309): a `StreamFlags` word and a frame
rate.  The constructor's parameter is annotated `int`; the frame rate is
modelled as an integer so that negative inputs are representable. -/
structure Start where
  flags : Nat
  frame_rate : Int
deriving DecidableEq

/-- `Start.set_frame_rate` (message.py lines 328-331): replaces a negative
frame rate by `0`, then stores it. -/
def Start.set_frame_rate (s : Start) (frame_rate : Int) : Start :=
  { s with frame_rate := if frame_rate < 0 then 0 else frame_rate }

/-- `Start.__init__` (message.py lines 312-314): stores `flags` and routes
`frame_rate` through `set_frame_rate`. -/
def Start.init (flags : Nat) (frame_rate : Int) : Start :=
  Start.set_frame_rate { flags := flags, frame_rate := 0 } frame_rate

/-- `Start.__contains__` (message.py lines 319-320): `IntFlag` membership
`flags in self.flags`, i.e. every bit of `fl` is set in `s.flags`. -/
def Start.contains (s : Start) (fl : Nat) : Bool :=
  s.flags &&& fl = fl

/-- Modelled from the spec: `FrameSequencer` and `FrameRateLimiter` live in
`frame_limiter.py`, which is not part of `src/`; per spec §4.6 they are
the two rate-policy decorators over a frame source (identified here by a
numeric id) — a sequencer (one yield per unique frame id) and a
fixed-rate limiter carrying its configured rate. -/
inductive RatePolicy where
  | FrameSequencer (src : Nat)
  | FrameRateLimiter (src : Nat) (rate : Int)
deriving DecidableEq

/-- The per-connection session state of `Connection` (server.py lines
25-47): the `transmitting`, `transmit_frames` and `transmit_data` events,
the `compression` setting, the raw `frame_source` taken from the stream,
and the `source` attribute, which does not exist until the `Start`
handler first assigns a rate policy to it (hence `Option`). -/
structure Connection where
  transmitting : Bool
  transmit_frames : Bool
  transmit_data : Bool
  compression : Bool
  frame_source : Nat
  source : Option RatePolicy
deriving DecidableEq

/-- `Connection.__init__` (server.py lines 39-47): all three events start
cleared, compression starts on, `frame_source` is the stream's source,
and no rate policy is bound yet. -/
def Connection.init (stream_source : Nat) : Connection :=
  { transmitting := false
    transmit_frames := false
    transmit_data := false
    compression := true
    frame_source := stream_source
    source := none }

/-- The `Start` branch of `Connection.respond_if_necessary` (server.py
lines 98-114): set `transmitting`; bind `FrameSequencer(stream.source)`
when the message's frame rate is 0 and
`FrameRateLimiter(stream.source, frame_rate)` otherwise; then set or
clear `transmit_frames` and `transmit_data` according to the
`FRAME_DATA` and `ADDL_DATA` stream flags of the message. -/
def Connection.handleStart (stream_source : Nat) (c : Connection) (m : Start) :
    Connection :=
  let c := { c with transmitting := true }
  let c := { c with
             source := some (if m.frame_rate = 0
                             then RatePolicy.FrameSequencer stream_source
                             else RatePolicy.FrameRateLimiter stream_source m.frame_rate) }
  let c := { c with transmit_frames := Start.contains m StreamFlags.FRAME_DATA }
  { c with transmit_data := Start.contains m StreamFlags.ADDL_DATA }

/-- `SocketPool` (socket_pool.py lines 6-16): the configured port range
(`range(start, end+1)`, kept as the half-open pair `(start, end+1)`), the
deque of available ports, and the `sockets` attribute.  The class only
declares `sockets: dict[int]` as an annotation; no method ever assigns
it, so the attribute does not exist on any instance — modelled by an
`Option` that `init` leaves at `none`.  A bound socket is identified by
its port number. -/
structure SocketPool where
  port_range : Nat × Nat
  available_ports : List Nat
  sockets : Option (List (Nat × Nat))
deriving DecidableEq

/-- `SocketPool.__init__` (socket_pool.py lines 13-16): stores
`range(start, end+1)` and fills the available-port deque with it; the
`sockets` dict is never initialised. -/
def SocketPool.init (start stop : Nat) : SocketPool :=
  { port_range := (start, stop + 1)
    available_ports := List.range' start (stop + 1 - start)
    sockets := none }

/-- `SocketPool.allocate` (socket_pool.py lines 18-29): returns `None`
when no port is available; otherwise pops the leftmost available port,
binds a socket, and stores it via `self.sockets[port] = s` — which raises
`AttributeError` because `self.sockets` was never initialised.  (In the
source the pop has already happened when the fault is raised; no theorem
below depends on the post-fault pool state.) -/
def SocketPool.allocate (p : SocketPool) : Except String (Option Nat × SocketPool) :=
  match p.available_ports with
  | [] => .ok (none, p)
  | port :: rest =>
    match p.sockets with
    | none => .error "AttributeError: sockets"
    | some d =>
      .ok (some port, { p with available_ports := rest, sockets := some ((port, port) :: d) })

/-- `SocketPool.deallocate` (socket_pool.py lines 31-42): the guard reads
`port in self.sockets` (raising `AttributeError` on the uninitialised
attribute) and returns `False` when the port IS in `sockets` or lies
outside the range; otherwise it looks the port up in `sockets` — where
the guard has just established it is absent, so the lookup raises
`KeyError` — and would append the port back to the available deque. -/
def SocketPool.deallocate (p : SocketPool) (port : Nat) :
    Except String (Bool × SocketPool) :=
  match p.sockets with
  | none => .error "AttributeError: sockets"
  | some d =>
    if d.any (fun kv => kv.1 = port)
        || !(decide (p.port_range.1 ≤ port) && decide (port < p.port_range.2)) then
      .ok (false, p)
    else
      match d.find? (fun kv => kv.1 = port) with
      | none => .error "KeyError"
      | some _ => .ok (true, { p with available_ports := p.available_ports ++ [port] })

/-
Theorems.  One theorem per claim of the specification review, preceded by
supporting lemmas where needed.
-/

/-- Sanity check of the parse embedding: a complete well-formed FrameData
encoding (uncompressed, both payloads present) parses back with the
original payload bytes, consuming the whole encoding. -/
example :
    FrameData.parse ⟨[1, 0, 0, 0, 2, 9, 8, 0, 1, 7]⟩
      = (.ok (some ⟨some [9, 8], some [7], false, false⟩), ⟨[]⟩) := rfl

/-- C1: the round-trip law "parsing the bytes produced by m.format() yields
a message semantically identical to m" fails on the code before decoding
is even reached: `FrameData.format` takes `len` of both payload slots
unconditionally, so formatting any FrameData with an absent payload (here:
no frame payload, auxiliary payload `[7]` — a message the constructor
accepts) raises `TypeError`, for every compression function. -/
theorem c1_format_faults_on_absent_payload (zc : List Nat → List Nat) :
    FrameData.format zc ⟨none, some [7], false, false⟩
      = .error "TypeError: len of None" := rfl

/-- C2: decoding a strict prefix of a valid encoded message does NOT leave
the buffer untouched.  On the 1-byte prefix `[1]` of any encoded
FrameData, `FrameData.parse` returns "not yet available" (`ok none`) but
the tag byte has been consumed: the resulting buffer is empty rather than
still holding `[1]`, so a later retry does not see the original stream
position. -/
theorem c2_strict_prefix_consumes_bytes :
    FrameData.parse ⟨[1]⟩ = (.ok none, ⟨[]⟩)
    ∧ (⟨[]⟩ : Buffer) ≠ ⟨[1]⟩ :=
  ⟨rfl, by decide⟩

/-- C3: on the stream `0xFF 0x05`, the unknown leading tag selects no
branch of `Message.parse` (result "no message", nothing consumed since the
dispatch only peeks), and `MessageKind.of` maps `0xFF` to `INVALID`; after
the caller skips the unknown byte the dispatch does select the `STOP`
branch — it is that branch's body (a constructor call instead of
`Stop.parse`, see `Message.parseBranch`) that fails to decode the
message. -/
theorem c3_unknown_tag_dispatch :
    Message.parseBranch ⟨[255, 5]⟩ = none
    ∧ MessageKind.of 255 = MessageKind.INVALID
    ∧ Message.parseBranch ⟨[5]⟩ = some MessageKind.STOP :=
  ⟨rfl, rfl, rfl⟩

/-- C4 counterexample: a FrameData whose only payload is PRESENT BUT EMPTY
is accepted by the constructor, and it carries no non-empty payload —
refuting the claim that every FrameData constructed for transmission
carries at least one non-empty payload. -/
theorem c4_counterexample :
    FrameData.init (some []) none false false = .ok ⟨some [], none, false, false⟩
    ∧ FrameData.hasNonemptyPayload ⟨some [], none, false, false⟩ = false :=
  ⟨rfl, rfl⟩

/-- C4 (amended): constructing a FrameData with no payload at all — both
slots `None` — raises `ValueError` at construction time, and exactly
then; every successfully constructed FrameData carries at least one
PRESENT payload (the guard checks presence, not non-emptiness). -/
theorem c4_payload_presence (fd ad : Option (List Nat)) (c cc : Bool) :
    (FrameData.init fd ad c cc = .error "ValueError: No data provided"
        ↔ fd = none ∧ ad = none)
    ∧ (∀ m, FrameData.init fd ad c cc = .ok m →
        (m.frame_data.isSome ∨ m.addl_data.isSome)) := by
  cases fd <;> cases ad <;> simp [FrameData.init]

/-- C4 witness: the amended theorem applied at a concrete constructed
message with a present frame payload. -/
theorem c4_payload_presence_witness :
    (⟨some [7], none, false, false⟩ : FrameData).frame_data.isSome
    ∨ (⟨some [7], none, false, false⟩ : FrameData).addl_data.isSome :=
  (c4_payload_presence (some [7]) none false false).2
    ⟨some [7], none, false, false⟩ rfl

/-- C5: `deallocate` on a freshly configured pool faults instead of
implementing the claimed double-free guard: the guard expression
`port in self.sockets` reads the never-initialised `sockets` attribute,
raising `AttributeError` (and even with the attribute present the guard
is inverted — it refuses exactly the leased ports). -/
theorem c5_deallocate_eval :
    SocketPool.deallocate (SocketPool.init 5000 5005) 5000
      = .error "AttributeError: sockets" := rfl

/-- C6: `allocate` on a fresh pool with available ports faults
(`self.sockets[port] = s` on the never-initialised attribute) instead of
returning the first port of the range; only the exhausted-pool branch,
checked before that statement, returns the claimed failure value
(`None`) — shown here on an empty range. -/
theorem c6_allocate_eval :
    SocketPool.allocate (SocketPool.init 5000 5005) = .error "AttributeError: sockets"
    ∧ SocketPool.allocate (SocketPool.init 5001 5000)
        = .ok (none, SocketPool.init 5001 5000) :=
  ⟨rfl, rfl⟩

/-- Length of the `FRAME_SIZE` chunk: 4 bytes when flagged, 0 otherwise. -/
theorem fsBytes_length (o : Option (Nat × Nat)) :
    (fsBytes o).length = if o.isSome then 4 else 0 := by
  rcases o with _ | ⟨w, h⟩ <;> simp [fsBytes, be16]

/-- Length of the `COMPRESSED` chunk: 1 byte when flagged, 0 otherwise. -/
theorem compBytes_length (o : Option Bool) :
    (compBytes o).length = if o.isSome then 1 else 0 := by
  rcases o with _ | c <;> simp [compBytes]

/-- Length of the `FOV` chunk: 8 bytes when flagged, 0 otherwise. -/
theorem fovBytes_length (o : Option (Nat × Nat)) :
    (fovBytes o).length = if o.isSome then 8 else 0 := by
  rcases o with _ | ⟨x, y⟩ <;> simp [fovBytes, be32]

/-- Length of the `TARGET_SIZE` chunk: 4 bytes when flagged, 0 otherwise. -/
theorem tsBytes_length (o : Option (Nat × Nat)) :
    (tsBytes o).length = if o.isSome then 4 else 0 := by
  rcases o with _ | ⟨w, h⟩ <;> simp [tsBytes, be16]

/-- C7: the parameter data of every Configure message consists of exactly
the fixed widths of the flagged parameters (4 + 1 + 8 + 4 bytes for
`FRAME_SIZE`, `COMPRESSED`, `FOV`, `TARGET_SIZE` respectively), it
follows a 3-byte header in `Configure.format`, and in particular a
Configure with exactly `{FRAME_SIZE, COMPRESSED}` set encodes to 5 bytes
of parameter data, in that order (4 bytes of frame size, then the 1-byte
compression flag). -/
theorem c7_parameter_widths (d : ParamValues) :
    (Parameter.format_data d).length =
        (if d.frame_size.isSome then 4 else 0)
      + (if d.compressed.isSome then 1 else 0)
      + (if d.fov.isSome then 8 else 0)
      + (if d.target_size.isSome then 4 else 0)
    ∧ (Configure.format d).length = 3 + (Parameter.format_data d).length
    ∧ (Parameter.format_data ⟨some (640, 480), some true, none, none⟩).length = 5
    ∧ Parameter.format_data ⟨some (640, 480), some true, none, none⟩
        = be16 640 ++ be16 480 ++ [1] := by
  refine ⟨?_, ?_, by decide, by decide⟩
  · simp only [Parameter.format_data, List.length_append, fsBytes_length,
      compBytes_length, fovBytes_length, tsBytes_length]
  · simp only [Configure.format, be16, List.length_append, List.length_cons,
      List.length_nil]

/-- C8: compressing an already-compressed FrameData is a no-op, and
decompressing an already-decompressed one is a no-op — payload bytes and
compression state unchanged — for every compression/decompression
function. -/
theorem c8_idempotence (zc zd : List Nat → List Nat) (m : FrameData) :
    (m.currently_compressed = true → FrameData._compress zc m = m)
    ∧ (m.currently_compressed = false → FrameData._decompress zd m = .ok m) := by
  constructor
  · intro h; simp [FrameData._compress, h]
  · intro h; simp [FrameData._decompress, h]

/-- C8 witness: both no-ops at concrete messages (with the identity as the
zlib stand-in). -/
theorem c8_idempotence_witness :
    FrameData._compress id ⟨some [1, 2], some [3], true, true⟩
      = ⟨some [1, 2], some [3], true, true⟩
    ∧ FrameData._decompress id ⟨some [1, 2], some [3], true, false⟩
      = .ok ⟨some [1, 2], some [3], true, false⟩ :=
  ⟨(c8_idempotence id id ⟨some [1, 2], some [3], true, true⟩).1 rfl,
   (c8_idempotence id id ⟨some [1, 2], some [3], true, false⟩).2 rfl⟩

/-- C9: receiving `Start{flags, frame_rate}` puts the session in the
Transmitting state, binds a `FrameSequencer` over the stream's frame
source when `frame_rate = 0` and a `FrameRateLimiter` over it at the
message's rate when `frame_rate > 0`, and sets the frame-payload and
auxiliary-payload enables exactly to the `FRAME_DATA` and `ADDL_DATA`
flags of the message. -/
theorem c9_start_transition (src : Nat) (c : Connection) (m : Start) :
    (Connection.handleStart src c m).transmitting = true
    ∧ (m.frame_rate = 0 →
        (Connection.handleStart src c m).source
          = some (RatePolicy.FrameSequencer src))
    ∧ (0 < m.frame_rate →
        (Connection.handleStart src c m).source
          = some (RatePolicy.FrameRateLimiter src m.frame_rate))
    ∧ (Connection.handleStart src c m).transmit_frames
        = Start.contains m StreamFlags.FRAME_DATA
    ∧ (Connection.handleStart src c m).transmit_data
        = Start.contains m StreamFlags.ADDL_DATA := by
  refine ⟨rfl, ?_, ?_, rfl, rfl⟩
  · intro h
    simp [Connection.handleStart, h]
  · intro h
    have hne : m.frame_rate ≠ 0 := by omega
    simp [Connection.handleStart, hne]

/-- C9 witness: the transition applied to a fresh session, once with
`Start{FRAME_DATA|ADDL_DATA, 0}` (sequencer) and once with
`Start{FRAME_DATA, 30}` (rate limiter). -/
theorem c9_start_transition_witness :
    (Connection.handleStart 9 (Connection.init 9) (Start.init 6 0)).source
      = some (RatePolicy.FrameSequencer 9)
    ∧ (Connection.handleStart 9 (Connection.init 9) (Start.init 2 30)).source
      = some (RatePolicy.FrameRateLimiter 9 30) :=
  ⟨(c9_start_transition 9 (Connection.init 9) (Start.init 6 0)).2.1 (by decide),
   (c9_start_transition 9 (Connection.init 9) (Start.init 2 30)).2.2.1 (by decide)⟩

/-- C10: every constructed Start has a non-negative frame rate:
`Start.__init__` and `Start.set_frame_rate` clamp any negative input to 0
(and keep non-negative inputs unchanged) rather than rejecting it. -/
theorem c10_frame_rate_clamped (flags : Nat) (fr : Int) (s : Start) :
    0 ≤ (Start.init flags fr).frame_rate
    ∧ 0 ≤ (Start.set_frame_rate s fr).frame_rate
    ∧ (fr < 0 → (Start.init flags fr).frame_rate = 0
        ∧ (Start.set_frame_rate s fr).frame_rate = 0)
    ∧ (0 ≤ fr → (Start.init flags fr).frame_rate = fr) := by
  unfold Start.init Start.set_frame_rate
  dsimp only
  split_ifs <;> omega

/-- C10 witness: a negative input frame rate is clamped to 0 by both the
constructor and the setter. -/
theorem c10_frame_rate_clamped_witness :
    (Start.init 0 (-5)).frame_rate = 0
    ∧ (Start.set_frame_rate (Start.init 0 3) (-5)).frame_rate = 0 :=
  (c10_frame_rate_clamped 0 (-5) (Start.init 0 3)).2.2.1 (by decide)
